import Mathlib

/-!
Shallow embedding of the e-commerce product pricing system.

The embedding translates the TypeScript sources directly:
- `discountCalculator.ts`: `calculateDiscountAmount`, `calculateFinalPrice`
- the tax calculator module: `calculateTax`, `calculatePriceWithTax`, `getTaxRate`
- the `Product` model: `ProductData`, `Product`, `Product.getPriceWithDiscount`
- `apiService.ts`: the four fetch operations, with the transport outcome of
  each HTTP round trip modelled as an explicit input, and the `APIError` /
  `NetworkError` classification of `errorHandler.ts`

Monetary values and percentages are modelled as exact rationals (`ℚ`);
functions that `throw new Error(msg)` are modelled as `Except String`
returning `.error msg`.
-/

namespace ECommerce

deriving instance DecidableEq for Except

/-- ASCII lowercasing of a string, modelling `String.prototype.toLowerCase`
as used by the tax calculator (category strings are ASCII). -/
def toLowerCase (s : String) : String := ⟨s.data.map Char.toLower⟩

/-- From `src/utilities/discountCalculator.ts`:
throws when `price < 0` or `discountPercentage` is outside `[0,100]`,
otherwise returns `price * (discountPercentage / 100)`. -/
def calculateDiscountAmount (price discountPercentage : ℚ) : Except String ℚ :=
  if price < 0 then
    .error ("Price cannot be negative")
  else if discountPercentage < 0 ∨ discountPercentage > 100 then
    .error ("Discount percentage must be between 0 and 100")
  else
    .ok (price * (discountPercentage / 100))

/-- From `src/utilities/discountCalculator.ts`:
`price - calculateDiscountAmount(price, discountPercentage)`, with the
thrown validation error propagating to the caller unchanged. -/
def calculateFinalPrice (price discountPercentage : ℚ) : Except String ℚ :=
  match calculateDiscountAmount price discountPercentage with
  | .error e => .error e
  | .ok discountAmount => .ok (price - discountAmount)

/-- Module-level constant of the tax calculator: 4.75% standard rate. -/
def STANDARD_TAX_RATE : ℚ := 475 / 10000

/-- Module-level constant of the tax calculator: 3% reduced grocery rate. -/
def GROCERY_TAX_RATE : ℚ := 3 / 100

/-- Module-level constant of the tax calculator: the reduced-rate category. -/
def GROCERY_CATEGORY : String := "groceries"

/-- From the tax calculator module: throws when `price < 0`, otherwise
returns `price * taxRate` where the rate is chosen by a case-insensitive
comparison of the category with `GROCERY_CATEGORY`. -/
def calculateTax (price : ℚ) (category : String) : Except String ℚ :=
  if price < 0 then
    .error ("Price cannot be negative")
  else
    let taxRate :=
      if toLowerCase category = GROCERY_CATEGORY then GROCERY_TAX_RATE
      else STANDARD_TAX_RATE
    .ok (price * taxRate)

/-- From the tax calculator module:
`price + calculateTax(price, category)`, propagating the thrown error. -/
def calculatePriceWithTax (price : ℚ) (category : String) : Except String ℚ :=
  match calculateTax price category with
  | .error e => .error e
  | .ok taxAmount => .ok (price + taxAmount)

/-- From the tax calculator module: the applicable rate for a category;
same lookup as `calculateTax`, total (no validation, no failure path). -/
def getTaxRate (category : String) : ℚ :=
  if toLowerCase category = GROCERY_CATEGORY then GROCERY_TAX_RATE
  else STANDARD_TAX_RATE

/-- The `ProductData` interface: the raw record shape fetched from the API. -/
structure ProductData where
  id : Int
  title : String
  description : String
  price : ℚ
  discountPercentage : ℚ
  rating : ℚ
  stock : Int
  brand : String
  category : String
  thumbnail : String
  images : List String
deriving DecidableEq

/-- The `Product` class: same eleven properties as `ProductData`. -/
structure Product where
  id : Int
  title : String
  description : String
  price : ℚ
  discountPercentage : ℚ
  rating : ℚ
  stock : Int
  brand : String
  category : String
  thumbnail : String
  images : List String
deriving DecidableEq

/-- The `Product` constructor: assigns each field of the raw data to the
corresponding property, with no validation. -/
def Product.ofData (data : ProductData) : Product :=
  ⟨data.id, data.title, data.description, data.price, data.discountPercentage,
   data.rating, data.stock, data.brand, data.category, data.thumbnail, data.images⟩

/-- `Product.getPriceWithDiscount`: computes the discount amount inline
(`price * (discountPercentage / 100)`) and subtracts it — note that unlike
the discount calculator it performs no input validation. -/
def Product.getPriceWithDiscount (p : Product) : ℚ :=
  let discountAmount := p.price * (p.discountPercentage / 100)
  p.price - discountAmount

/-- The error taxonomy of `errorHandler.ts`: `APIError` carries a message
and an optional numeric status code; `NetworkError` carries a message. -/
inductive ApiFailure where
  | apiError (message : String) (statusCode : Option Nat)
  | networkError (message : String)
deriving DecidableEq

/-- A value thrown inside the `try` block of a fetch operation, as the
`catch` block discriminates it: an already-constructed `APIError`
(`instanceof APIError`), a `TypeError` from `fetch` (transport failure),
or any other unexpected thrown value. -/
inductive ThrownError where
  | api (message : String) (statusCode : Option Nat)
  | typeError
  | otherError
deriving DecidableEq

/-- The outcome of one HTTP round trip, modelled as an input: either the
remote produced a response (with status, status text and parsed body), or
`fetch` threw a transport-level `TypeError`, or some other unexpected
failure occurred inside the `try` block. -/
inductive FetchOutcome (α : Type) where
  | httpResponse (status : Nat) (statusText : String) (body : α)
  | transportFailure
  | otherFailure

/-- `Response.ok` of the fetch API: status in the range 200–299. -/
def responseOk (status : Nat) : Bool := 200 ≤ status && status ≤ 299

/-- The connectivity message used by every fetch operation's `catch`. -/
def networkErrorMessage : String :=
  "Network connection failed. Please check your internet connection."

/-- The shared `catch` block of the four fetch operations: an `APIError`
is re-thrown without modification, a `TypeError` becomes a `NetworkError`,
and anything else is wrapped in a generic `APIError` (no status code) with
the operation-specific message. -/
def classifyCatch (unexpectedMessage : String) : ThrownError → ApiFailure
  | .api m c => .apiError m c
  | .typeError => .networkError networkErrorMessage
  | .otherError => .apiError unexpectedMessage none

/-- The `try` block of `APIService.fetchAllProducts`: a non-ok response
throws an `APIError` carrying the status code, otherwise the parsed
`products` array is returned. -/
def APIService.tryFetchAllProducts (outcome : FetchOutcome (List ProductData)) :
    Except ThrownError (List ProductData) :=
  match outcome with
  | .httpResponse status statusText body =>
      if !(responseOk status) then
        .error (.api ("Failed to fetch products: " ++ statusText) (some status))
      else
        .ok body
  | .transportFailure => .error .typeError
  | .otherFailure => .error .otherError

/-- `APIService.fetchAllProducts`: the `try` block followed by the shared
`catch` classification. -/
def APIService.fetchAllProducts (outcome : FetchOutcome (List ProductData)) :
    Except ApiFailure (List ProductData) :=
  match APIService.tryFetchAllProducts outcome with
  | .ok v => .ok v
  | .error e =>
      .error (classifyCatch ("An unexpected error occurred while fetching products") e)

/-- The `try` block of `APIService.fetchProductById`: a 404 response throws
the id-specific not-found `APIError`, any other non-ok response throws the
generic status-coded `APIError`. -/
def APIService.tryFetchProductById (id : Int) (outcome : FetchOutcome ProductData) :
    Except ThrownError ProductData :=
  match outcome with
  | .httpResponse status statusText body =>
      if !(responseOk status) then
        if status = 404 then
          .error (.api ("Product with ID " ++ toString id ++ " not found") (some 404))
        else
          .error (.api ("Failed to fetch product: " ++ statusText) (some status))
      else
        .ok body
  | .transportFailure => .error .typeError
  | .otherFailure => .error .otherError

/-- `APIService.fetchProductById`: the `try` block followed by the shared
`catch` classification. -/
def APIService.fetchProductById (id : Int) (outcome : FetchOutcome ProductData) :
    Except ApiFailure ProductData :=
  match APIService.tryFetchProductById id outcome with
  | .ok v => .ok v
  | .error e =>
      .error (classifyCatch ("An unexpected error occurred while fetching the product") e)

/-- The `try` block of `APIService.fetchProductsByCategory`: a 404 response
throws the category-specific not-found `APIError`. -/
def APIService.tryFetchProductsByCategory (category : String)
    (outcome : FetchOutcome (List ProductData)) :
    Except ThrownError (List ProductData) :=
  match outcome with
  | .httpResponse status statusText body =>
      if !(responseOk status) then
        if status = 404 then
          .error (.api ("Category \x27" ++ category ++ "\x27 not found") (some 404))
        else
          .error (.api ("Failed to fetch products by category: " ++ statusText) (some status))
      else
        .ok body
  | .transportFailure => .error .typeError
  | .otherFailure => .error .otherError

/-- `APIService.fetchProductsByCategory`: the `try` block followed by the
shared `catch` classification. -/
def APIService.fetchProductsByCategory (category : String)
    (outcome : FetchOutcome (List ProductData)) :
    Except ApiFailure (List ProductData) :=
  match APIService.tryFetchProductsByCategory category outcome with
  | .ok v => .ok v
  | .error e =>
      .error (classifyCatch ("An unexpected error occurred while fetching products by category") e)

/-- The `try` block of `APIService.searchProducts`: any non-ok response
throws the status-coded `APIError`. -/
def APIService.trySearchProducts (outcome : FetchOutcome (List ProductData)) :
    Except ThrownError (List ProductData) :=
  match outcome with
  | .httpResponse status statusText body =>
      if !(responseOk status) then
        .error (.api ("Failed to search products: " ++ statusText) (some status))
      else
        .ok body
  | .transportFailure => .error .typeError
  | .otherFailure => .error .otherError

/-- `APIService.searchProducts`: the `try` block followed by the shared
`catch` classification. -/
def APIService.searchProducts (outcome : FetchOutcome (List ProductData)) :
    Except ApiFailure (List ProductData) :=
  match APIService.trySearchProducts outcome with
  | .ok v => .ok v
  | .error e =>
      .error (classifyCatch ("An unexpected error occurred while searching products") e)

/-- A product whose `price` field is negative, as the permissive `Product`
constructor happily produces from unvalidated fetched data. -/
def invalidProduct : Product :=
  ⟨1, "t", "d", -1, 0, 0, 0, "b", "groceries", "u", []⟩

/-- A product with well-formed price and discount fields. -/
def validProduct : Product :=
  ⟨1, "t", "d", 100, 20, 0, 0, "b", "electronics", "u", []⟩

/-- A concrete raw record used to instantiate fetch-operation theorems. -/
def sampleProductData : ProductData :=
  ⟨1, "t", "d", 100, 20, 0, 0, "b", "electronics", "u", []⟩

/-- Helper: on a non-negative price and an in-range percentage the discount
amount computation succeeds with `price * (discountPercentage / 100)`. -/
theorem calculateDiscountAmount_ok (p d : ℚ) (hp : 0 ≤ p) (h0 : 0 ≤ d) (h1 : d ≤ 100) :
    calculateDiscountAmount p d = .ok (p * (d / 100)) := by
  unfold calculateDiscountAmount
  rw [if_neg (not_lt.mpr hp), if_neg ?_]
  push_neg
  exact ⟨h0, h1⟩

/-- Helper: on a non-negative price and an in-range percentage the final
price computation succeeds with `price - price * (discountPercentage / 100)`. -/
theorem calculateFinalPrice_ok (p d : ℚ) (hp : 0 ≤ p) (h0 : 0 ≤ d) (h1 : d ≤ 100) :
    calculateFinalPrice p d = .ok (p - p * (d / 100)) := by
  unfold calculateFinalPrice
  rw [calculateDiscountAmount_ok p d hp h0 h1]

/-- Helper: on a non-negative price the tax computation succeeds with
`price * getTaxRate category`. -/
theorem calculateTax_ok (p : ℚ) (c : String) (hp : 0 ≤ p) :
    calculateTax p c = .ok (p * getTaxRate c) := by
  unfold calculateTax getTaxRate
  rw [if_neg (not_lt.mpr hp)]

/-- Claim C1: `calculateDiscountAmount` fails exactly when `price < 0` or
`discountPercentage` lies outside `[0,100]`, and otherwise returns
`price * discountPercentage / 100`; `calculateFinalPrice` fails with
exactly the same errors on exactly the same inputs, and otherwise returns
the price minus the discount amount. -/
theorem C1_discount_and_finalPrice_validation (p d : ℚ) :
    ((∃ e, calculateDiscountAmount p d = .error e) ↔ (p < 0 ∨ d < 0 ∨ 100 < d))
    ∧ (∀ e, calculateDiscountAmount p d = .error e ↔ calculateFinalPrice p d = .error e)
    ∧ (¬(p < 0 ∨ d < 0 ∨ 100 < d) →
        calculateDiscountAmount p d = .ok (p * (d / 100))
        ∧ calculateFinalPrice p d = .ok (p - p * (d / 100))) := by
  unfold calculateFinalPrice calculateDiscountAmount
  split_ifs with h1 h2
  · exact ⟨⟨fun _ => Or.inl h1, fun _ => ⟨_, rfl⟩⟩, fun e => Iff.rfl,
      fun h => absurd (Or.inl h1) h⟩
  · have hd : p < 0 ∨ d < 0 ∨ 100 < d := by
      rcases h2 with h | h
      · exact Or.inr (Or.inl h)
      · exact Or.inr (Or.inr h)
    exact ⟨⟨fun _ => hd, fun _ => ⟨_, rfl⟩⟩, fun e => Iff.rfl, fun h => absurd hd h⟩
  · refine ⟨⟨?_, ?_⟩, ?_, fun _ => ⟨rfl, rfl⟩⟩
    · rintro ⟨e, he⟩
      simp at he
    · rintro (h | h | h)
      · exact absurd h h1
      · exact absurd (Or.inl h) h2
      · exact absurd (Or.inr h) h2
    · intro e
      constructor <;> intro he <;> simp_all

theorem C1_witness :
    calculateDiscountAmount 100 20 = .ok 20 ∧ calculateFinalPrice 100 20 = .ok 80 := by
  have h := (C1_discount_and_finalPrice_validation 100 20).2.2 (by norm_num)
  norm_num at h
  exact h

/-- Claim C2: for every non-negative price and every discount percentage in
`[0,100]`, the discount amount and the final price both succeed and sum
exactly to the original price (over exact rational arithmetic). -/
theorem C2_discount_plus_final_eq_price (p d : ℚ)
    (hp : 0 ≤ p) (h0 : 0 ≤ d) (h1 : d ≤ 100) :
    ∃ a f, calculateDiscountAmount p d = .ok a
      ∧ calculateFinalPrice p d = .ok f ∧ a + f = p := by
  exact ⟨p * (d / 100), p - p * (d / 100), calculateDiscountAmount_ok p d hp h0 h1,
    calculateFinalPrice_ok p d hp h0 h1, by ring⟩

theorem C2_witness :
    ∃ a f, calculateDiscountAmount 100 20 = .ok a
      ∧ calculateFinalPrice 100 20 = .ok f ∧ a + f = 100 :=
  C2_discount_plus_final_eq_price 100 20 (by norm_num) (by norm_num) (by norm_num)

/-- Claim C3: `getTaxRate` is total and performs a case-insensitive lookup:
it returns `0.03` exactly when the category lowercases to `"groceries"`
(so also for case variants such as `"Groceries"`), and returns `0.0475`
for every other category string, including unrecognized ones. -/
theorem C3_getTaxRate_case_insensitive_total :
    getTaxRate ("groceries") = 3/100
    ∧ getTaxRate ("Groceries") = 3/100
    ∧ getTaxRate ("electronics") = 475/10000
    ∧ getTaxRate ("unknown-category") = 475/10000
    ∧ ∀ c : String,
        (getTaxRate c = 3/100 ↔ toLowerCase c = GROCERY_CATEGORY)
        ∧ (getTaxRate c = 3/100 ∨ getTaxRate c = 475/10000) := by
  refine ⟨?_, ?_, ?_, ?_, ?_⟩
  · rw [getTaxRate, if_pos (by decide)]
    norm_num [GROCERY_TAX_RATE]
  · rw [getTaxRate, if_pos (by decide)]
    norm_num [GROCERY_TAX_RATE]
  · rw [getTaxRate, if_neg (by decide)]
    norm_num [STANDARD_TAX_RATE]
  · rw [getTaxRate, if_neg (by decide)]
    norm_num [STANDARD_TAX_RATE]
  · intro c
    unfold getTaxRate
    split_ifs with h
    · simp [h, GROCERY_TAX_RATE]
    · simp [h, GROCERY_TAX_RATE, STANDARD_TAX_RATE]
      norm_num

/-- Claim C4: `calculateTax` fails exactly when the price is negative, and
otherwise returns the price times the category's tax rate. -/
theorem C4_calculateTax_validation (p : ℚ) (c : String) :
    ((∃ e, calculateTax p c = .error e) ↔ p < 0)
    ∧ (¬p < 0 → calculateTax p c = .ok (p * getTaxRate c)) := by
  constructor
  · unfold calculateTax
    split_ifs with h
    · exact ⟨fun _ => h, fun _ => ⟨_, rfl⟩⟩
    · refine ⟨?_, fun hlt => absurd hlt h⟩
      rintro ⟨e, he⟩
      simp at he
  · intro hn
    exact calculateTax_ok p c (not_lt.mp hn)

theorem C4_witness :
    ¬(80:ℚ) < 0 ∧ calculateTax 80 ("electronics") = .ok (19/5) := by
  have h := (C4_calculateTax_validation 80 ("electronics")).2 (by norm_num)
  rw [getTaxRate, if_neg (by decide)] at h
  norm_num [STANDARD_TAX_RATE] at h
  exact ⟨by norm_num, h⟩

/-- Claim C5: for every non-negative price, `calculatePriceWithTax` returns
the passed-in price plus `calculateTax` of that same price — it applies no
discount of its own to its argument. -/
theorem C5_priceWithTax_adds_tax_to_argument (p : ℚ) (c : String) (hp : 0 ≤ p) :
    ∃ t, calculateTax p c = .ok t ∧ calculatePriceWithTax p c = .ok (p + t) := by
  have ht := calculateTax_ok p c hp
  refine ⟨p * getTaxRate c, ht, ?_⟩
  unfold calculatePriceWithTax
  rw [ht]

theorem C5_witness :
    ∃ t, calculateTax 80 ("electronics") = .ok t
      ∧ calculatePriceWithTax 80 ("electronics") = .ok (80 + t) :=
  C5_priceWithTax_adds_tax_to_argument 80 ("electronics") (by norm_num)

/-- Claim C6 counterexample: the claim that `Product.getPriceWithDiscount`
produces the same validation failures as `calculateFinalPrice` is false —
on a record with `price = -1` and `discountPercentage = 0`, the method
returns `-1` while the pricing engine fails with the negative-price error. -/
theorem C6_counterexample :
    Product.getPriceWithDiscount invalidProduct = -1
    ∧ calculateFinalPrice invalidProduct.price invalidProduct.discountPercentage
        = .error ("Price cannot be negative") := by
  constructor
  · norm_num [Product.getPriceWithDiscount, invalidProduct]
  · norm_num [calculateFinalPrice, calculateDiscountAmount, invalidProduct]

/-- Claim C6 (amended): on every record whose `price` is non-negative and
whose `discountPercentage` lies in `[0,100]`, `Product.getPriceWithDiscount`
returns exactly the value `calculateFinalPrice` returns on the record's own
fields; on invalid fields the two differ, since the method performs no
validation while the engine fails (see the counterexample). -/
theorem C6_amended_agreement_on_valid_fields (prod : Product)
    (hp : 0 ≤ prod.price) (h0 : 0 ≤ prod.discountPercentage)
    (h1 : prod.discountPercentage ≤ 100) :
    calculateFinalPrice prod.price prod.discountPercentage
      = .ok (prod.getPriceWithDiscount) := by
  rw [calculateFinalPrice_ok _ _ hp h0 h1]
  rfl

theorem C6_witness :
    calculateFinalPrice validProduct.price validProduct.discountPercentage
      = .ok (validProduct.getPriceWithDiscount) :=
  C6_amended_agreement_on_valid_fields validProduct (by norm_num [validProduct])
    (by norm_num [validProduct]) (by norm_num [validProduct])

/-- Claim C7: for each of the four fetch operations, with the transport
outcome modelled as an input: a non-success HTTP-level response yields an
`APIError` carrying the numeric status code and a human-readable message;
a transport-level failure yields a `NetworkError`; any other unexpected
failure yields a generic `APIError` without a status code; and the shared
`catch` block propagates an already-thrown `APIError` unchanged, never
re-wrapping it. -/
theorem C7_error_classification (status : Nat) (st : String) (id : Int)
    (category : String) (body : List ProductData) (record : ProductData) :
    (responseOk status = false →
      (∃ m, APIService.fetchAllProducts (.httpResponse status st body)
          = .error (.apiError m (some status)))
      ∧ (∃ m, APIService.fetchProductById id (.httpResponse status st record)
          = .error (.apiError m (some status)))
      ∧ (∃ m, APIService.fetchProductsByCategory category (.httpResponse status st body)
          = .error (.apiError m (some status)))
      ∧ (∃ m, APIService.searchProducts (.httpResponse status st body)
          = .error (.apiError m (some status))))
    ∧ (APIService.fetchAllProducts .transportFailure
          = .error (.networkError networkErrorMessage)
      ∧ APIService.fetchProductById id .transportFailure
          = .error (.networkError networkErrorMessage)
      ∧ APIService.fetchProductsByCategory category .transportFailure
          = .error (.networkError networkErrorMessage)
      ∧ APIService.searchProducts .transportFailure
          = .error (.networkError networkErrorMessage))
    ∧ ((∃ m, APIService.fetchAllProducts .otherFailure = .error (.apiError m none))
      ∧ (∃ m, APIService.fetchProductById id .otherFailure = .error (.apiError m none))
      ∧ (∃ m, APIService.fetchProductsByCategory category .otherFailure
          = .error (.apiError m none))
      ∧ (∃ m, APIService.searchProducts .otherFailure = .error (.apiError m none)))
    ∧ (∀ u m code, classifyCatch u (.api m code) = .apiError m code) := by
  refine ⟨?_, ⟨rfl, rfl, rfl, rfl⟩,
    ⟨⟨_, rfl⟩, ⟨_, rfl⟩, ⟨_, rfl⟩, ⟨_, rfl⟩⟩, fun u m code => rfl⟩
  intro h
  refine ⟨⟨"Failed to fetch products: " ++ st, ?_⟩, ?_,
    ?_, ⟨"Failed to search products: " ++ st, ?_⟩⟩
  · simp [APIService.fetchAllProducts, APIService.tryFetchAllProducts, h, classifyCatch]
  · by_cases h4 : status = 404
    · subst h4
      exact ⟨"Product with ID " ++ toString id ++ " not found",
        by simp [APIService.fetchProductById, APIService.tryFetchProductById, h, classifyCatch]⟩
    · exact ⟨"Failed to fetch product: " ++ st,
        by simp [APIService.fetchProductById, APIService.tryFetchProductById, h, h4, classifyCatch]⟩
  · by_cases h4 : status = 404
    · subst h4
      exact ⟨"Category \x27" ++ category ++ "\x27 not found",
        by simp [APIService.fetchProductsByCategory, APIService.tryFetchProductsByCategory,
          h, classifyCatch]⟩
    · exact ⟨"Failed to fetch products by category: " ++ st,
        by simp [APIService.fetchProductsByCategory, APIService.tryFetchProductsByCategory,
          h, h4, classifyCatch]⟩
  · simp [APIService.searchProducts, APIService.trySearchProducts, h, classifyCatch]

theorem C7_witness :
    (∃ m, APIService.fetchAllProducts (.httpResponse 500 ("Internal Server Error") [])
        = .error (.apiError m (some 500)))
    ∧ (∃ m, APIService.fetchProductById 1
          (.httpResponse 500 ("Internal Server Error") sampleProductData)
        = .error (.apiError m (some 500)))
    ∧ (∃ m, APIService.fetchProductsByCategory ("beauty")
          (.httpResponse 500 ("Internal Server Error") [])
        = .error (.apiError m (some 500)))
    ∧ (∃ m, APIService.searchProducts (.httpResponse 500 ("Internal Server Error") [])
        = .error (.apiError m (some 500))) :=
  (C7_error_classification 500 ("Internal Server Error") 1 ("beauty") []
    sampleProductData).1 (by decide)

/-- Claim C8: for every id, a 404 response makes `fetchProductById` fail
with the id-specific not-found `APIError` carrying status code 404 — the
dedicated not-found branch, not the generic failure-status error. -/
theorem C8_fetchById_404_is_notFound (id : Int) (st : String) (record : ProductData) :
    APIService.fetchProductById id (.httpResponse 404 st record)
      = .error (.apiError ("Product with ID " ++ toString id ++ " not found") (some 404)) := by
  rfl

/-- Claim C9: the `Product` constructor is total and a verbatim field copy:
each of the eleven fields of the constructed product equals the
corresponding field of the raw record, with no validation — in particular
records with a negative price or an out-of-range discount percentage are
still constructed successfully. -/
theorem C9_constructor_verbatim_copy (data : ProductData) :
    (Product.ofData data).id = data.id
    ∧ (Product.ofData data).title = data.title
    ∧ (Product.ofData data).description = data.description
    ∧ (Product.ofData data).price = data.price
    ∧ (Product.ofData data).discountPercentage = data.discountPercentage
    ∧ (Product.ofData data).rating = data.rating
    ∧ (Product.ofData data).stock = data.stock
    ∧ (Product.ofData data).brand = data.brand
    ∧ (Product.ofData data).category = data.category
    ∧ (Product.ofData data).thumbnail = data.thumbnail
    ∧ (Product.ofData data).images = data.images :=
  ⟨rfl, rfl, rfl, rfl, rfl, rfl, rfl, rfl, rfl, rfl, rfl⟩

/-- Claim C10: for every non-negative price and in-range discount
percentage, the final price lies in `[0, price]`, so in the
discount-then-tax pipeline `calculateTax` and `calculatePriceWithTax`
applied to it succeed for every category — the negative-price error branch
is unreachable there. -/
theorem C10_discounted_price_safe_for_tax (p d : ℚ)
    (hp : 0 ≤ p) (h0 : 0 ≤ d) (h1 : d ≤ 100) :
    ∃ f, calculateFinalPrice p d = .ok f ∧ 0 ≤ f ∧ f ≤ p
      ∧ ∀ c : String, calculateTax f c = .ok (f * getTaxRate c)
        ∧ calculatePriceWithTax f c = .ok (f + f * getTaxRate c) := by
  have hda0 : 0 ≤ p * (d / 100) := mul_nonneg hp (div_nonneg h0 (by norm_num))
  have hdap : p * (d / 100) ≤ p := by
    have hle : p * (d / 100) ≤ p * 1 := mul_le_mul_of_nonneg_left (by linarith) hp
    simpa using hle
  refine ⟨p - p * (d / 100), calculateFinalPrice_ok p d hp h0 h1,
    by linarith, by linarith, ?_⟩
  intro c
  have ht := calculateTax_ok (p - p * (d / 100)) c (by linarith)
  refine ⟨ht, ?_⟩
  unfold calculatePriceWithTax
  rw [ht]

theorem C10_witness :
    ∃ f, calculateFinalPrice 100 20 = .ok f ∧ 0 ≤ f ∧ f ≤ 100
      ∧ ∀ c : String, calculateTax f c = .ok (f * getTaxRate c)
        ∧ calculatePriceWithTax f c = .ok (f + f * getTaxRate c) :=
  C10_discounted_price_safe_for_tax 100 20 (by norm_num) (by norm_num) (by norm_num)

end ECommerce
